import Mathlib

/-
Verification of the OpenNN conjugate-gradient training algorithm
(src/opennn/conjugate_gradient.h).

Only the class header is part of the sources; the method bodies are declared
there (calculate_PR_parameter, calculate_FR_parameter, the training-direction
methods, perform_training, ConjugateGradientResults::resize_training_history)
but their implementation file is not present.  Following the specification
document, those operations are modelled here from the spec's own words; each
such definition carries a doc comment starting with "Modelled from the spec:".
The inline constructors of ConjugateGradientResults (header lines 88-98) are
present in the source and are embedded from the source directly.

Numerical values are embedded as exact rationals.  The parameter-vector norm,
the wall clock, the objective/selection evaluators and the one-dimensional
line-search minimizer are external collaborators per spec section 1 and are
injected as function parameters (the Evaluators structure).
-/

namespace OpenNN

/-- Training-direction operators, header line 56: `enum TrainingDirectionMethod{PR, FR}`. -/
inductive TrainingDirectionMethod where
  | PR
  | FR
deriving DecidableEq

/-- Stopping reasons recorded by the training loop (spec sections 4.3 and 7). -/
inductive StoppingReason where
  | PerformanceGoalReached
  | GradientNormGoalReached
  | MinimumParametersIncrementReached
  | PerformanceIncreaseBelowMinimum
  | EarlyStoppingOnSelection
  | MaximumTimeExceeded
  | MaximumIterationsReached
  | NumericalFailure
deriving DecidableEq

/-- Dot product of two parameter vectors (linear-algebra primitive, spec section 1). -/
def dot (u v : List ℚ) : ℚ := (List.zipWith (fun a b => a * b) u v).sum

/-- Entrywise negation of a parameter vector. -/
def vneg (v : List ℚ) : List ℚ := v.map (fun x => -x)

/-- Entrywise sum of two parameter vectors. -/
def vadd (u v : List ℚ) : List ℚ := List.zipWith (fun a b => a + b) u v

/-- Entrywise difference of two parameter vectors. -/
def vsub (u v : List ℚ) : List ℚ := List.zipWith (fun a b => a - b) u v

/-- Scalar multiple of a parameter vector. -/
def smul (c : ℚ) (v : List ℚ) : List ℚ := v.map (fun x => c * x)

/-- Modelled from the spec: calculate_PR_parameter (header line 301, body missing).
Polak-Ribiere coefficient beta = max(0, (gradient . (gradient - old_gradient)) /
(old_gradient . old_gradient)), substituting 0 when the denominator is zero
(spec section 4.1; in this exact-arithmetic model "approximately zero" is exact
zero and non-finite quotients cannot arise). -/
def calculate_PR_parameter (old_gradient gradient : List ℚ) : ℚ :=
  let denominator := dot old_gradient old_gradient
  if denominator = 0 then 0
  else max 0 (dot gradient (vsub gradient old_gradient) / denominator)

/-- Modelled from the spec: calculate_FR_parameter (header line 302, body missing).
Fletcher-Reeves coefficient beta = (gradient . gradient) /
(old_gradient . old_gradient) with the same zero-denominator guard
(spec section 4.1). -/
def calculate_FR_parameter (old_gradient gradient : List ℚ) : ℚ :=
  let denominator := dot old_gradient old_gradient
  if denominator = 0 then 0
  else dot gradient gradient / denominator

/-- Modelled from the spec: calculate_PR_training_direction (header line 304, body
missing).  Direction = -gradient + beta * old_direction with the PR coefficient. -/
def calculate_PR_training_direction (old_gradient gradient old_training_direction : List ℚ) :
    List ℚ :=
  vadd (vneg gradient) (smul (calculate_PR_parameter old_gradient gradient) old_training_direction)

/-- Modelled from the spec: calculate_FR_training_direction (header line 305, body
missing).  Direction = -gradient + beta * old_direction with the FR coefficient. -/
def calculate_FR_training_direction (old_gradient gradient old_training_direction : List ℚ) :
    List ℚ :=
  vadd (vneg gradient) (smul (calculate_FR_parameter old_gradient gradient) old_training_direction)

/-- Modelled from the spec: calculate_gradient_descent_training_direction (header
line 307, body missing).  The fallback direction is -gradient (spec section 4.1). -/
def calculate_gradient_descent_training_direction (gradient : List ℚ) : List ℚ :=
  vneg gradient

/-- Modelled from the spec: calculate_training_direction (header line 309, body
missing).  Computes the conjugate direction for the configured method and falls
back to the gradient-descent direction whenever the conjugate direction fails the
descent check: its dot product with the negative gradient is not positive (a
restart, spec section 4.1). -/
def calculate_training_direction (method : TrainingDirectionMethod)
    (old_gradient gradient old_training_direction : List ℚ) : List ℚ :=
  let conjugate :=
    match method with
    | .PR => calculate_PR_training_direction old_gradient gradient old_training_direction
    | .FR => calculate_FR_training_direction old_gradient gradient old_training_direction
  if 0 < dot conjugate (vneg gradient) then conjugate
  else calculate_gradient_descent_training_direction gradient

/-- Configuration of a ConjugateGradient object (header lines 331-429; the warning
thresholds are advisory-only per spec section 4.5 and have no observable effect on
the result record, so they are not part of the model). -/
structure Configuration where
  training_direction_method : TrainingDirectionMethod
  first_training_rate : ℚ
  error_parameters_norm : ℚ
  error_gradient_norm : ℚ
  error_training_rate : ℚ
  minimum_parameters_increment_norm : ℚ
  minimum_performance_increase : ℚ
  performance_goal : ℚ
  gradient_norm_goal : ℚ
  maximum_selection_performance_decreases : ℕ
  maximum_iterations_number : ℕ
  maximum_time : ℚ
  reserve_parameters_history : Bool
  reserve_parameters_norm_history : Bool
  reserve_performance_history : Bool
  reserve_selection_performance_history : Bool
  reserve_gradient_history : Bool
  reserve_gradient_norm_history : Bool
  reserve_training_direction_history : Bool
  reserve_training_rate_history : Bool
  reserve_elapsed_time_history : Bool
deriving DecidableEq

/-- External collaborators (spec sections 1 and 6): the objective evaluator, the
optional selection evaluator, the one-dimensional line-search minimizer (returning
none on a line-search failure), the vector-norm primitive, and the wall clock
(elapsed seconds after a given number of iterations). -/
structure Evaluators where
  performance : List ℚ → ℚ
  gradient : List ℚ → List ℚ
  selection : Option (List ℚ → ℚ)
  minimize : List ℚ → List ℚ → ℚ → Option (List ℚ × ℚ × ℚ)
  nrm : List ℚ → ℚ
  clock : ℕ → ℚ

/-- Iteration state owned by the orchestrator (spec section 3). -/
structure TrainingState where
  parameters : List ℚ
  performance : ℚ
  old_performance : ℚ
  gradient : List ℚ
  old_gradient : List ℚ
  training_direction : List ℚ
  training_rate : ℚ
  parameters_increment_norm : ℚ
  selection_performance : ℚ
  selection_increases_count : ℕ
  elapsed_time : ℚ
  iteration : ℕ
deriving DecidableEq

/-- Results record, header lines 84-194.  The history channels and final-value
fields mirror the C++ struct; the stopping reason is recorded per run (spec
section 3 invariant; the field lives in the base TrainingAlgorithmResults, which
is outside the given sources).  The back-pointer to the owning ConjugateGradient
object is modelled as an optional address. -/
structure ConjugateGradientResults where
  conjugate_gradient_pointer : Option ℕ
  parameters_history : List (List ℚ)
  parameters_norm_history : List ℚ
  performance_history : List ℚ
  selection_performance_history : List ℚ
  gradient_history : List (List ℚ)
  gradient_norm_history : List ℚ
  training_direction_history : List (List ℚ)
  training_rate_history : List ℚ
  elapsed_time_history : List ℚ
  final_parameters : List ℚ
  final_parameters_norm : ℚ
  final_performance : ℚ
  final_selection_performance : ℚ
  final_gradient : List ℚ
  final_gradient_norm : ℚ
  final_training_direction : List ℚ
  final_training_rate : ℚ
  elapsed_time : ℚ
  iterations_number : ℕ
  stopping_condition : StoppingReason
deriving DecidableEq

/-- Default constructor, header lines 88-91: sets the back-pointer to NULL; the
vector members default-construct empty.  The scalar members are left
uninitialized by the C++ constructor; the model uses 0 (no claim depends on
them), and the stopping reason gets an arbitrary default. -/
def ConjugateGradientResults.default : ConjugateGradientResults :=
  { conjugate_gradient_pointer := none,
    parameters_history := [],
    parameters_norm_history := [],
    performance_history := [],
    selection_performance_history := [],
    gradient_history := [],
    gradient_norm_history := [],
    training_direction_history := [],
    training_rate_history := [],
    elapsed_time_history := [],
    final_parameters := [],
    final_parameters_norm := 0,
    final_performance := 0,
    final_selection_performance := 0,
    final_gradient := [],
    final_gradient_norm := 0,
    final_training_direction := [],
    final_training_rate := 0,
    elapsed_time := 0,
    iterations_number := 0,
    stopping_condition := .MaximumIterationsReached }

/-- Conjugate-gradient-pointer constructor, header lines 95-98: stores exactly
the given pointer; everything else as in the default constructor. -/
def ConjugateGradientResults.ofPointer (p : ℕ) : ConjugateGradientResults :=
  { ConjugateGradientResults.default with conjugate_gradient_pointer := some p }

/-- Modelled from the spec: ConjugateGradientResults::resize_training_history
(header line 190, body missing).  Pre-sizes each history channel whose reserve
flag is set to the given size (spec section 4.4); channels whose flag is false
are left untouched. -/
def resize_training_history (cfg : Configuration) (n : ℕ) (r : ConjugateGradientResults) :
    ConjugateGradientResults :=
  { r with
    parameters_history :=
      if cfg.reserve_parameters_history then List.replicate n [] else r.parameters_history,
    parameters_norm_history :=
      if cfg.reserve_parameters_norm_history then List.replicate n 0
      else r.parameters_norm_history,
    performance_history :=
      if cfg.reserve_performance_history then List.replicate n 0 else r.performance_history,
    selection_performance_history :=
      if cfg.reserve_selection_performance_history then List.replicate n 0
      else r.selection_performance_history,
    gradient_history :=
      if cfg.reserve_gradient_history then List.replicate n [] else r.gradient_history,
    gradient_norm_history :=
      if cfg.reserve_gradient_norm_history then List.replicate n 0
      else r.gradient_norm_history,
    training_direction_history :=
      if cfg.reserve_training_direction_history then List.replicate n []
      else r.training_direction_history,
    training_rate_history :=
      if cfg.reserve_training_rate_history then List.replicate n 0
      else r.training_rate_history,
    elapsed_time_history :=
      if cfg.reserve_elapsed_time_history then List.replicate n 0
      else r.elapsed_time_history }

/-- Modelled from the spec: the history recorder (spec section 4.4).  For each
channel whose reserve flag is true, stores the current-iteration value at the slot
for the current iteration; channels whose flag is false are never populated. -/
def record_history (cfg : Configuration) (ev : Evaluators) (st : TrainingState)
    (r : ConjugateGradientResults) : ConjugateGradientResults :=
  { r with
    parameters_history :=
      if cfg.reserve_parameters_history then r.parameters_history.set st.iteration st.parameters
      else r.parameters_history,
    parameters_norm_history :=
      if cfg.reserve_parameters_norm_history then
        r.parameters_norm_history.set st.iteration (ev.nrm st.parameters)
      else r.parameters_norm_history,
    performance_history :=
      if cfg.reserve_performance_history then
        r.performance_history.set st.iteration st.performance
      else r.performance_history,
    selection_performance_history :=
      if cfg.reserve_selection_performance_history then
        r.selection_performance_history.set st.iteration st.selection_performance
      else r.selection_performance_history,
    gradient_history :=
      if cfg.reserve_gradient_history then r.gradient_history.set st.iteration st.gradient
      else r.gradient_history,
    gradient_norm_history :=
      if cfg.reserve_gradient_norm_history then
        r.gradient_norm_history.set st.iteration (ev.nrm st.gradient)
      else r.gradient_norm_history,
    training_direction_history :=
      if cfg.reserve_training_direction_history then
        r.training_direction_history.set st.iteration st.training_direction
      else r.training_direction_history,
    training_rate_history :=
      if cfg.reserve_training_rate_history then
        r.training_rate_history.set st.iteration st.training_rate
      else r.training_rate_history,
    elapsed_time_history :=
      if cfg.reserve_elapsed_time_history then
        r.elapsed_time_history.set st.iteration st.elapsed_time
      else r.elapsed_time_history }

/-- Modelled from the spec: the stopping-criteria evaluator (spec section 4.3).
The seven criteria are evaluated in the fixed order given there, first match wins,
all threshold comparisons inclusive.  The two criteria that compare against the
previous iteration (parameters-increment norm and performance increase) can fire
only from iteration 1 on, and the early-stopping criterion only when a selection
evaluator is present. -/
def check_stopping (cfg : Configuration) (ev : Evaluators) (st : TrainingState) :
    Option StoppingReason :=
  if st.performance ≤ cfg.performance_goal then some .PerformanceGoalReached
  else if ev.nrm st.gradient ≤ cfg.gradient_norm_goal then some .GradientNormGoalReached
  else if st.iteration ≠ 0 ∧
      st.parameters_increment_norm ≤ cfg.minimum_parameters_increment_norm then
    some .MinimumParametersIncrementReached
  else if st.iteration ≠ 0 ∧
      st.old_performance - st.performance ≤ cfg.minimum_performance_increase then
    some .PerformanceIncreaseBelowMinimum
  else if ev.selection.isSome = true ∧
      cfg.maximum_selection_performance_decreases ≤ st.selection_increases_count then
    some .EarlyStoppingOnSelection
  else if cfg.maximum_time ≤ st.elapsed_time then some .MaximumTimeExceeded
  else if cfg.maximum_iterations_number ≤ st.iteration then some .MaximumIterationsReached
  else none

/-- Modelled from the spec: the terminal transition of the orchestrator (spec
section 4.5).  Fills the final-value fields from the current state, records the
stopping reason and the iteration count, and performs the single final trim of
every history channel to the number of recorded entries. -/
def finalize (reason : StoppingReason) (entries : ℕ) (ev : Evaluators)
    (st : TrainingState) (r : ConjugateGradientResults) : ConjugateGradientResults :=
  { r with
    parameters_history := r.parameters_history.take entries,
    parameters_norm_history := r.parameters_norm_history.take entries,
    performance_history := r.performance_history.take entries,
    selection_performance_history := r.selection_performance_history.take entries,
    gradient_history := r.gradient_history.take entries,
    gradient_norm_history := r.gradient_norm_history.take entries,
    training_direction_history := r.training_direction_history.take entries,
    training_rate_history := r.training_rate_history.take entries,
    elapsed_time_history := r.elapsed_time_history.take entries,
    final_parameters := st.parameters,
    final_parameters_norm := ev.nrm st.parameters,
    final_performance := st.performance,
    final_selection_performance := st.selection_performance,
    final_gradient := st.gradient,
    final_gradient_norm := ev.nrm st.gradient,
    final_training_direction := st.training_direction,
    final_training_rate := st.training_rate,
    elapsed_time := st.elapsed_time,
    iterations_number := st.iteration,
    stopping_condition := reason }

/-- Modelled from the spec: direction selection inside the training loop (spec
sections 4.1 and 4.5).  On the first iteration there is no prior gradient or
direction, so the gradient-descent fallback is used; afterwards the configured
conjugate formula (with its own restart fallback) is used. -/
def select_training_direction (cfg : Configuration) (st : TrainingState) : List ℚ :=
  if st.iteration = 0 then calculate_gradient_descent_training_direction st.gradient
  else
    calculate_training_direction cfg.training_direction_method st.old_gradient st.gradient
      st.training_direction

/-- Modelled from the spec: the state update after a successful line search (spec
section 4.5): new parameters, performance and step come from the minimizer, the
gradient is re-evaluated, the selection-increase counter increments when the
selection performance rose and resets to 0 otherwise, and the clock advances. -/
def step_state (ev : Evaluators) (st : TrainingState) (dir new_parameters : List ℚ)
    (new_performance rate : ℚ) : TrainingState :=
  { parameters := new_parameters,
    performance := new_performance,
    old_performance := st.performance,
    gradient := ev.gradient new_parameters,
    old_gradient := st.gradient,
    training_direction := dir,
    training_rate := rate,
    parameters_increment_norm := ev.nrm (vsub new_parameters st.parameters),
    selection_performance :=
      match ev.selection with
      | some f => f new_parameters
      | none => 0,
    selection_increases_count :=
      if ev.selection.isSome = true ∧
          st.selection_performance <
            (match ev.selection with
             | some f => f new_parameters
             | none => 0) then
        st.selection_increases_count + 1
      else 0,
    elapsed_time := ev.clock (st.iteration + 1),
    iteration := st.iteration + 1 }

/-- Modelled from the spec: the iterating phase of the orchestrator (spec section
4.5), written with explicit fuel (criterion 7 fires before the fuel, started at
maximum_iterations_number + 1, can run out; the fuel-exhausted branch is
unreachable from perform_training and conservatively reports a failure).  Each
pass: check the error thresholds on the parameters and gradient norms, record the
current state into the history (spec section 4.4: the iteration-0 entry precedes
any direction or line-search step), evaluate the stopping criteria, and otherwise
perform one direction computation plus line search and recurse on the updated
state. -/
def training_loop (cfg : Configuration) (ev : Evaluators) :
    ℕ → TrainingState → ConjugateGradientResults → ConjugateGradientResults
  | 0, st, r => finalize .NumericalFailure st.iteration ev st r
  | fuel + 1, st, r =>
    if cfg.error_parameters_norm ≤ ev.nrm st.parameters ∨
        cfg.error_gradient_norm ≤ ev.nrm st.gradient then
      finalize .NumericalFailure st.iteration ev st r
    else
      match check_stopping cfg ev st with
      | some reason => finalize reason (st.iteration + 1) ev st (record_history cfg ev st r)
      | none =>
        match ev.minimize st.parameters (select_training_direction cfg st)
            (if st.iteration = 0 then cfg.first_training_rate else st.training_rate) with
        | none =>
          finalize .NumericalFailure (st.iteration + 1) ev
            { st with training_direction := select_training_direction cfg st }
            (record_history cfg ev st r)
        | some (new_parameters, new_performance, rate) =>
          if cfg.error_training_rate ≤ rate then
            finalize .NumericalFailure (st.iteration + 1) ev
              { st with training_direction := select_training_direction cfg st,
                        training_rate := rate }
              (record_history cfg ev st r)
          else
            training_loop cfg ev fuel
              (step_state ev st (select_training_direction cfg st) new_parameters
                new_performance rate)
              (record_history cfg ev st r)

/-- Modelled from the spec: the initial iteration state (spec section 4.5,
Initializing): performance and gradient evaluated at the starting parameters,
iteration index 0, counters zeroed; no direction or training rate exists yet. -/
def initial_state (ev : Evaluators) (p0 : List ℚ) : TrainingState :=
  { parameters := p0,
    performance := ev.performance p0,
    old_performance := 0,
    gradient := ev.gradient p0,
    old_gradient := [],
    training_direction := List.replicate p0.length 0,
    training_rate := 0,
    parameters_increment_norm := 0,
    selection_performance :=
      match ev.selection with
      | some f => f p0
      | none => 0,
    selection_increases_count := 0,
    elapsed_time := ev.clock 0,
    iteration := 0 }

/-- Modelled from the spec: perform_training (header line 313, body missing).
Pre-sizes the reserved history channels to maximum_iterations_number + 1 (spec
section 4.4) and runs the training loop from the initial state. -/
def perform_training (cfg : Configuration) (ev : Evaluators) (p0 : List ℚ) :
    ConjugateGradientResults :=
  training_loop cfg ev (cfg.maximum_iterations_number + 1) (initial_state ev p0)
    (resize_training_history cfg (cfg.maximum_iterations_number + 1)
      ConjugateGradientResults.default)

/-- Length bookkeeping for the nine history channels: every reserved channel has
length n, every non-reserved channel has length 0. -/
def reserved_lengths (cfg : Configuration) (r : ConjugateGradientResults) (n : ℕ) : Prop :=
  r.parameters_history.length = (if cfg.reserve_parameters_history then n else 0) ∧
  r.parameters_norm_history.length = (if cfg.reserve_parameters_norm_history then n else 0) ∧
  r.performance_history.length = (if cfg.reserve_performance_history then n else 0) ∧
  r.selection_performance_history.length =
    (if cfg.reserve_selection_performance_history then n else 0) ∧
  r.gradient_history.length = (if cfg.reserve_gradient_history then n else 0) ∧
  r.gradient_norm_history.length = (if cfg.reserve_gradient_norm_history then n else 0) ∧
  r.training_direction_history.length =
    (if cfg.reserve_training_direction_history then n else 0) ∧
  r.training_rate_history.length = (if cfg.reserve_training_rate_history then n else 0) ∧
  r.elapsed_time_history.length = (if cfg.reserve_elapsed_time_history then n else 0)

/-- Manhattan norm, a concrete instance of the external norm primitive used by the
concrete scenarios below. -/
def nrm1 (v : List ℚ) : ℚ := (v.map (fun x => |x|)).sum

/-- Base configuration for the concrete scenarios: no goal or minimum-change
criterion can fire (negative thresholds against nonnegative quantities), large
error thresholds, ten iterations, no history reserved. -/
def cfgBase : Configuration :=
  { training_direction_method := .PR,
    first_training_rate := 1,
    error_parameters_norm := 1000,
    error_gradient_norm := 1000,
    error_training_rate := 1000,
    minimum_parameters_increment_norm := -1,
    minimum_performance_increase := -1,
    performance_goal := -1,
    gradient_norm_goal := -1,
    maximum_selection_performance_decreases := 100,
    maximum_iterations_number := 10,
    maximum_time := 1000,
    reserve_parameters_history := false,
    reserve_parameters_norm_history := false,
    reserve_performance_history := false,
    reserve_selection_performance_history := false,
    reserve_gradient_history := false,
    reserve_gradient_norm_history := false,
    reserve_training_direction_history := false,
    reserve_training_rate_history := false,
    reserve_elapsed_time_history := false }

/-- Base evaluators for the concrete scenarios: constant objective value 100,
gradient equal to the parameter vector (so each minimizer step multiplies the
gradient norm by 25), no selection set, Manhattan norm, a clock that never
advances. -/
def evBase : Evaluators :=
  { performance := fun _ => 100,
    gradient := fun p => p,
    selection := none,
    minimize := fun p _ _ => some (smul 25 p, 100, 1),
    nrm := nrm1,
    clock := fun _ => 0 }

/-- Scenario configuration for the numerical-failure claim: the gradient-norm
error threshold is 1. -/
def cfgC6 : Configuration := { cfgBase with error_gradient_norm := 1 }

/-- Iteration-2 state of the numerical-failure scenario: the evaluator has just
returned a gradient of norm 5 while the error threshold is 1. -/
def stC6 : TrainingState :=
  { parameters := [5],
    performance := 100,
    old_performance := 100,
    gradient := [5],
    old_gradient := [1 / 5],
    training_direction := [-1],
    training_rate := 1,
    parameters_increment_norm := 1,
    selection_performance := 0,
    selection_increases_count := 0,
    elapsed_time := 0,
    iteration := 2 }

/-- Scenario configuration for the history-length claim: three-iteration budget
with every history channel reserved. -/
def cfgC3 : Configuration :=
  { cfgBase with
    maximum_iterations_number := 2,
    reserve_parameters_history := true,
    reserve_parameters_norm_history := true,
    reserve_performance_history := true,
    reserve_selection_performance_history := true,
    reserve_gradient_history := true,
    reserve_gradient_norm_history := true,
    reserve_training_direction_history := true,
    reserve_training_rate_history := true,
    reserve_elapsed_time_history := true }

/-- Scenario configuration for the immediate-termination claim: zero iteration
budget, one history channel reserved. -/
def cfgC9 : Configuration :=
  { cfgBase with maximum_iterations_number := 0, reserve_performance_history := true }

/-- Counterexample configuration for the immediate-termination claim: zero
iteration budget and a performance goal that is already met at the start. -/
def cfgC9x : Configuration :=
  { cfgBase with maximum_iterations_number := 0, performance_goal := 1000 }

/-- Counterexample configuration for the gradient-descent-fallback claim: the
performance goal is met at the start and the gradient-norm goal is 0. -/
def cfgC7x : Configuration :=
  { cfgBase with performance_goal := 1000, gradient_norm_goal := 0 }

/-- Evaluators for the gradient-descent-fallback counterexample: the gradient is
identically zero. -/
def evC7x : Evaluators := { evBase with gradient := fun _ => [0] }

/-- Scenario configuration for the amended gradient-descent-fallback claim:
gradient-norm goal 0, every other criterion unreachable. -/
def cfgC7 : Configuration := { cfgBase with gradient_norm_goal := 0 }

/-- State with an all-zero gradient for the amended gradient-descent-fallback
claim. -/
def stC7 : TrainingState :=
  { parameters := [1],
    performance := 100,
    old_performance := 100,
    gradient := [0],
    old_gradient := [1],
    training_direction := [-1],
    training_rate := 1,
    parameters_increment_norm := 1,
    selection_performance := 0,
    selection_increases_count := 0,
    elapsed_time := 0,
    iteration := 3 }

/-- Boundary state for the stopping-order claim: at iteration 3 the performance
equals the performance goal of 100 and the gradient norm 0 is below the
gradient-norm goal, so two criteria hold at once. -/
def stC2 : TrainingState :=
  { parameters := [1],
    performance := 100,
    old_performance := 100,
    gradient := [0],
    old_gradient := [1],
    training_direction := [-1],
    training_rate := 1,
    parameters_increment_norm := 1,
    selection_performance := 0,
    selection_increases_count := 0,
    elapsed_time := 0,
    iteration := 3 }

/-- Configuration for the stopping-order tie scenario: performance goal 100 and
gradient-norm goal 100 are both satisfiable at once. -/
def cfgC2 : Configuration :=
  { cfgBase with performance_goal := 100, gradient_norm_goal := 100 }

/-- Boundary state for the gradient-norm criterion of the stopping-order claim:
the performance 200 misses the goal while the gradient norm equals the
gradient-norm goal of 100 exactly. -/
def stC2b : TrainingState := { stC2 with performance := 200, gradient := [-100] }

theorem dot_cons (a b : ℚ) (u v : List ℚ) : dot (a :: u) (b :: v) = a * b + dot u v := by
  simp [dot]

theorem dot_self_nonneg (v : List ℚ) : 0 ≤ dot v v := by
  induction v with
  | nil => simp [dot]
  | cons a t ih =>
    rw [dot_cons]
    exact add_nonneg (mul_self_nonneg a) ih

theorem dot_self_pos (v : List ℚ) (x : ℚ) (hx : x ∈ v) (hx0 : x ≠ 0) : 0 < dot v v := by
  induction v with
  | nil => cases hx
  | cons a t ih =>
    rw [dot_cons]
    rcases List.mem_cons.mp hx with h | h
    · subst h
      exact add_pos_of_pos_of_nonneg (mul_self_pos.mpr hx0) (dot_self_nonneg t)
    · exact add_pos_of_nonneg_of_pos (mul_self_nonneg a) (ih h)

theorem dot_vneg_vneg (v : List ℚ) : dot (vneg v) (vneg v) = dot v v := by
  induction v with
  | nil => rfl
  | cons a t ih =>
    have hv : vneg (a :: t) = -a :: vneg t := rfl
    rw [hv, dot_cons, dot_cons, ih, neg_mul_neg]

@[simp] theorem finalize_stopping_condition (reason : StoppingReason) (entries : ℕ)
    (ev : Evaluators) (st : TrainingState) (r : ConjugateGradientResults) :
    (finalize reason entries ev st r).stopping_condition = reason := rfl

@[simp] theorem finalize_iterations_number (reason : StoppingReason) (entries : ℕ)
    (ev : Evaluators) (st : TrainingState) (r : ConjugateGradientResults) :
    (finalize reason entries ev st r).iterations_number = st.iteration := rfl

@[simp] theorem finalize_final_gradient (reason : StoppingReason) (entries : ℕ)
    (ev : Evaluators) (st : TrainingState) (r : ConjugateGradientResults) :
    (finalize reason entries ev st r).final_gradient = st.gradient := rfl

@[simp] theorem finalize_final_gradient_norm (reason : StoppingReason) (entries : ℕ)
    (ev : Evaluators) (st : TrainingState) (r : ConjugateGradientResults) :
    (finalize reason entries ev st r).final_gradient_norm = ev.nrm st.gradient := rfl

/-- C10: a default-constructed ConjugateGradientResults has a NULL back-pointer
and all history sequences empty, while the pointer constructor stores exactly the
given pointer (and likewise leaves every history sequence empty). -/
theorem results_constructor_spec :
    ConjugateGradientResults.default.conjugate_gradient_pointer = none ∧
    (ConjugateGradientResults.default.parameters_history = [] ∧
      ConjugateGradientResults.default.parameters_norm_history = [] ∧
      ConjugateGradientResults.default.performance_history = [] ∧
      ConjugateGradientResults.default.selection_performance_history = [] ∧
      ConjugateGradientResults.default.gradient_history = [] ∧
      ConjugateGradientResults.default.gradient_norm_history = [] ∧
      ConjugateGradientResults.default.training_direction_history = [] ∧
      ConjugateGradientResults.default.training_rate_history = [] ∧
      ConjugateGradientResults.default.elapsed_time_history = []) ∧
    (∀ p : ℕ,
      (ConjugateGradientResults.ofPointer p).conjugate_gradient_pointer = some p ∧
      (ConjugateGradientResults.ofPointer p).parameters_history = []) :=
  ⟨rfl, ⟨rfl, rfl, rfl, rfl, rfl, rfl, rfl, rfl, rfl⟩, fun _ => ⟨rfl, rfl⟩⟩

theorem results_constructor_spec_witness :
    (ConjugateGradientResults.ofPointer 7).conjugate_gradient_pointer = some 7 :=
  (results_constructor_spec.2.2 7).1

/-- C4: calculate_PR_parameter returns max(0, (g . (g - g_old)) / (g_old . g_old))
and returns 0 whenever the denominator g_old . g_old is zero; in this
exact-arithmetic embedding "approximately zero" is exact zero and a non-finite
quotient cannot arise. -/
theorem PR_parameter_spec (g g_old : List ℚ) (_hdim : g.length = g_old.length) :
    (dot g_old g_old = 0 → calculate_PR_parameter g_old g = 0) ∧
    (dot g_old g_old ≠ 0 →
      calculate_PR_parameter g_old g =
        max 0 (dot g (vsub g g_old) / dot g_old g_old)) := by
  constructor
  · intro hd
    simp [calculate_PR_parameter, hd]
  · intro hd
    simp [calculate_PR_parameter, hd]

theorem PR_parameter_spec_witness :
    calculate_PR_parameter [3, 4] [1, 2] =
      max 0 (dot [(1 : ℚ), 2] (vsub [1, 2] [3, 4]) / dot [(3 : ℚ), 4] [3, 4]) ∧
    calculate_PR_parameter [0, 0] [1, 2] = 0 :=
  ⟨(PR_parameter_spec [1, 2] [3, 4] (by with_unfolding_all decide)).2 (by with_unfolding_all decide),
   (PR_parameter_spec [1, 2] [0, 0] (by with_unfolding_all decide)).1 (by with_unfolding_all decide)⟩

/-- C5: calculate_FR_parameter returns exactly (g . g) / (g_old . g_old), and
returns 0 whenever g_old . g_old is zero (the exact-arithmetic rendering of the
approximately-zero guard). -/
theorem FR_parameter_spec (g g_old : List ℚ) (_hdim : g.length = g_old.length) :
    (dot g_old g_old = 0 → calculate_FR_parameter g_old g = 0) ∧
    (dot g_old g_old ≠ 0 →
      calculate_FR_parameter g_old g = dot g g / dot g_old g_old) := by
  constructor
  · intro hd
    simp [calculate_FR_parameter, hd]
  · intro hd
    simp [calculate_FR_parameter, hd]

theorem FR_parameter_spec_witness :
    calculate_FR_parameter [3, 4] [1, 2] = dot [(1 : ℚ), 2] [1, 2] / dot [(3 : ℚ), 4] [3, 4] ∧
    calculate_FR_parameter [0, 0] [1, 2] = 0 :=
  ⟨(FR_parameter_spec [1, 2] [3, 4] (by with_unfolding_all decide)).2 (by with_unfolding_all decide),
   (FR_parameter_spec [1, 2] [0, 0] (by with_unfolding_all decide)).1 (by with_unfolding_all decide)⟩

/-- C1: after the first iteration the direction returned by
calculate_training_direction is -gradient + beta * old_direction with beta from
the configured PR or FR formula; the gradient-descent fallback -gradient is used
on the first iteration (the loop dispatches to it when the iteration index is 0)
and whenever the conjugate direction's dot product with the negative gradient is
not positive (a restart). -/
theorem training_direction_spec :
    (∀ old_g g old_d : List ℚ,
        0 < dot (calculate_PR_training_direction old_g g old_d) (vneg g) →
        calculate_training_direction .PR old_g g old_d =
          vadd (vneg g) (smul (calculate_PR_parameter old_g g) old_d)) ∧
    (∀ old_g g old_d : List ℚ,
        0 < dot (calculate_FR_training_direction old_g g old_d) (vneg g) →
        calculate_training_direction .FR old_g g old_d =
          vadd (vneg g) (smul (calculate_FR_parameter old_g g) old_d)) ∧
    (∀ old_g g old_d : List ℚ,
        ¬ 0 < dot (calculate_PR_training_direction old_g g old_d) (vneg g) →
        calculate_training_direction .PR old_g g old_d =
          calculate_gradient_descent_training_direction g) ∧
    (∀ old_g g old_d : List ℚ,
        ¬ 0 < dot (calculate_FR_training_direction old_g g old_d) (vneg g) →
        calculate_training_direction .FR old_g g old_d =
          calculate_gradient_descent_training_direction g) ∧
    (∀ g : List ℚ, calculate_gradient_descent_training_direction g = vneg g) ∧
    (∀ (cfg : Configuration) (st : TrainingState), st.iteration = 0 →
        select_training_direction cfg st =
          calculate_gradient_descent_training_direction st.gradient) ∧
    (∀ (cfg : Configuration) (st : TrainingState), st.iteration ≠ 0 →
        select_training_direction cfg st =
          calculate_training_direction cfg.training_direction_method st.old_gradient
            st.gradient st.training_direction) := by
  refine ⟨?_, ?_, ?_, ?_, fun g => rfl, ?_, ?_⟩
  · intro og g od h
    simp only [calculate_training_direction]
    rw [if_pos h]
    rfl
  · intro og g od h
    simp only [calculate_training_direction]
    rw [if_pos h]
    rfl
  · intro og g od h
    simp only [calculate_training_direction]
    rw [if_neg h]
  · intro og g od h
    simp only [calculate_training_direction]
    rw [if_neg h]
  · intro cfg st h
    simp [select_training_direction, h]
  · intro cfg st h
    simp [select_training_direction, h]

theorem training_direction_spec_witness :
    calculate_training_direction .PR [1] [2] [-3] =
      vadd (vneg [2]) (smul (calculate_PR_parameter [1] [2]) [-3]) ∧
    calculate_training_direction .PR [1] [2] [3] =
      calculate_gradient_descent_training_direction [2] ∧
    select_training_direction cfgBase (initial_state evBase [1]) =
      calculate_gradient_descent_training_direction (initial_state evBase [1]).gradient ∧
    select_training_direction cfgBase stC6 =
      calculate_training_direction cfgBase.training_direction_method stC6.old_gradient
        stC6.gradient stC6.training_direction :=
  ⟨training_direction_spec.1 [1] [2] [-3] (by with_unfolding_all decide),
   training_direction_spec.2.2.1 [1] [2] [3] (by with_unfolding_all decide),
   training_direction_spec.2.2.2.2.2.1 cfgBase (initial_state evBase [1]) rfl,
   training_direction_spec.2.2.2.2.2.2 cfgBase stC6 (by with_unfolding_all decide)⟩

/-- C8: perform_training is deterministic - two runs from the same starting
parameters with the same configuration and the same deterministic evaluators
produce identical results records (every field and every history equal). -/
theorem deterministic_training (cfg cfg' : Configuration) (ev ev' : Evaluators)
    (p0 p0' : List ℚ) (hc : cfg = cfg') (he : ev = ev') (hp : p0 = p0') :
    perform_training cfg ev p0 = perform_training cfg' ev' p0' := by
  subst hc
  subst he
  subst hp
  rfl

theorem deterministic_training_witness :
    perform_training cfgBase evBase [1] = perform_training cfgBase evBase [1] :=
  deterministic_training cfgBase cfgBase evBase evBase [1] [1] rfl rfl rfl

/-- C2: the seven stopping criteria are evaluated in the fixed order performance
goal, gradient-norm goal, minimum parameters-increment norm, minimum performance
increase, early stopping on selection, maximum time, maximum iterations; the
first satisfied criterion alone determines the recorded reason (in particular a
simultaneous performance-goal and gradient-norm-goal hit reports
PerformanceGoalReached), every threshold comparison is inclusive, and when no
criterion is satisfied the loop continues. -/
theorem stopping_order_spec (cfg : Configuration) (ev : Evaluators) (st : TrainingState) :
    (st.performance ≤ cfg.performance_goal →
      check_stopping cfg ev st = some .PerformanceGoalReached) ∧
    (¬ st.performance ≤ cfg.performance_goal →
      ev.nrm st.gradient ≤ cfg.gradient_norm_goal →
      check_stopping cfg ev st = some .GradientNormGoalReached) ∧
    (¬ st.performance ≤ cfg.performance_goal →
      ¬ ev.nrm st.gradient ≤ cfg.gradient_norm_goal →
      st.iteration ≠ 0 →
      st.parameters_increment_norm ≤ cfg.minimum_parameters_increment_norm →
      check_stopping cfg ev st = some .MinimumParametersIncrementReached) ∧
    (¬ st.performance ≤ cfg.performance_goal →
      ¬ ev.nrm st.gradient ≤ cfg.gradient_norm_goal →
      ¬ (st.iteration ≠ 0 ∧
          st.parameters_increment_norm ≤ cfg.minimum_parameters_increment_norm) →
      st.iteration ≠ 0 →
      st.old_performance - st.performance ≤ cfg.minimum_performance_increase →
      check_stopping cfg ev st = some .PerformanceIncreaseBelowMinimum) ∧
    (¬ st.performance ≤ cfg.performance_goal →
      ¬ ev.nrm st.gradient ≤ cfg.gradient_norm_goal →
      ¬ (st.iteration ≠ 0 ∧
          st.parameters_increment_norm ≤ cfg.minimum_parameters_increment_norm) →
      ¬ (st.iteration ≠ 0 ∧
          st.old_performance - st.performance ≤ cfg.minimum_performance_increase) →
      ev.selection.isSome = true →
      cfg.maximum_selection_performance_decreases ≤ st.selection_increases_count →
      check_stopping cfg ev st = some .EarlyStoppingOnSelection) ∧
    (¬ st.performance ≤ cfg.performance_goal →
      ¬ ev.nrm st.gradient ≤ cfg.gradient_norm_goal →
      ¬ (st.iteration ≠ 0 ∧
          st.parameters_increment_norm ≤ cfg.minimum_parameters_increment_norm) →
      ¬ (st.iteration ≠ 0 ∧
          st.old_performance - st.performance ≤ cfg.minimum_performance_increase) →
      ¬ (ev.selection.isSome = true ∧
          cfg.maximum_selection_performance_decreases ≤ st.selection_increases_count) →
      cfg.maximum_time ≤ st.elapsed_time →
      check_stopping cfg ev st = some .MaximumTimeExceeded) ∧
    (¬ st.performance ≤ cfg.performance_goal →
      ¬ ev.nrm st.gradient ≤ cfg.gradient_norm_goal →
      ¬ (st.iteration ≠ 0 ∧
          st.parameters_increment_norm ≤ cfg.minimum_parameters_increment_norm) →
      ¬ (st.iteration ≠ 0 ∧
          st.old_performance - st.performance ≤ cfg.minimum_performance_increase) →
      ¬ (ev.selection.isSome = true ∧
          cfg.maximum_selection_performance_decreases ≤ st.selection_increases_count) →
      ¬ cfg.maximum_time ≤ st.elapsed_time →
      cfg.maximum_iterations_number ≤ st.iteration →
      check_stopping cfg ev st = some .MaximumIterationsReached) ∧
    (¬ st.performance ≤ cfg.performance_goal →
      ¬ ev.nrm st.gradient ≤ cfg.gradient_norm_goal →
      ¬ (st.iteration ≠ 0 ∧
          st.parameters_increment_norm ≤ cfg.minimum_parameters_increment_norm) →
      ¬ (st.iteration ≠ 0 ∧
          st.old_performance - st.performance ≤ cfg.minimum_performance_increase) →
      ¬ (ev.selection.isSome = true ∧
          cfg.maximum_selection_performance_decreases ≤ st.selection_increases_count) →
      ¬ cfg.maximum_time ≤ st.elapsed_time →
      ¬ cfg.maximum_iterations_number ≤ st.iteration →
      check_stopping cfg ev st = none) := by
  refine ⟨?_, ?_, ?_, ?_, ?_, ?_, ?_, ?_⟩
  · intro h1
    unfold check_stopping
    rw [if_pos h1]
  · intro h1 h2
    unfold check_stopping
    rw [if_neg h1, if_pos h2]
  · intro h1 h2 hi h3
    unfold check_stopping
    rw [if_neg h1, if_neg h2, if_pos ⟨hi, h3⟩]
  · intro h1 h2 h3 hi h4
    unfold check_stopping
    rw [if_neg h1, if_neg h2, if_neg h3, if_pos ⟨hi, h4⟩]
  · intro h1 h2 h3 h4 hs h5
    unfold check_stopping
    rw [if_neg h1, if_neg h2, if_neg h3, if_neg h4, if_pos ⟨hs, h5⟩]
  · intro h1 h2 h3 h4 h5 h6
    unfold check_stopping
    rw [if_neg h1, if_neg h2, if_neg h3, if_neg h4, if_neg h5, if_pos h6]
  · intro h1 h2 h3 h4 h5 h6 h7
    unfold check_stopping
    rw [if_neg h1, if_neg h2, if_neg h3, if_neg h4, if_neg h5, if_neg h6, if_pos h7]
  · intro h1 h2 h3 h4 h5 h6 h7
    unfold check_stopping
    rw [if_neg h1, if_neg h2, if_neg h3, if_neg h4, if_neg h5, if_neg h6, if_neg h7]

theorem stopping_order_spec_witness :
    check_stopping cfgC2 evBase stC2 = some .PerformanceGoalReached ∧
    evBase.nrm stC2.gradient ≤ cfgC2.gradient_norm_goal ∧
    stC2.performance = cfgC2.performance_goal ∧
    check_stopping cfgC2 evBase stC2b = some .GradientNormGoalReached ∧
    evBase.nrm stC2b.gradient = cfgC2.gradient_norm_goal :=
  ⟨(stopping_order_spec cfgC2 evBase stC2).1 (by with_unfolding_all decide),
   by with_unfolding_all decide,
   by with_unfolding_all decide,
   (stopping_order_spec cfgC2 evBase stC2b).2.1 (by with_unfolding_all decide)
     (by with_unfolding_all decide),
   by with_unfolding_all decide⟩

/-- C6: an error-threshold breach on the parameters norm or gradient norm, a
line-search minimizer failure, or a training-rate breach of its error threshold
terminates the run at the current iteration with recorded reason
NumericalFailure; the returned record is still populated from the current state
(final gradient and its norm come from the iteration at which the run stopped). -/
theorem numerical_failure_spec :
    (∀ (cfg : Configuration) (ev : Evaluators) (fuel : ℕ) (st : TrainingState)
        (r : ConjugateGradientResults),
      cfg.error_parameters_norm ≤ ev.nrm st.parameters ∨
          cfg.error_gradient_norm ≤ ev.nrm st.gradient →
      (training_loop cfg ev (fuel + 1) st r).stopping_condition = .NumericalFailure ∧
      (training_loop cfg ev (fuel + 1) st r).iterations_number = st.iteration ∧
      (training_loop cfg ev (fuel + 1) st r).final_gradient_norm = ev.nrm st.gradient ∧
      (training_loop cfg ev (fuel + 1) st r).final_gradient = st.gradient) ∧
    (∀ (cfg : Configuration) (ev : Evaluators) (fuel : ℕ) (st : TrainingState)
        (r : ConjugateGradientResults),
      ¬ (cfg.error_parameters_norm ≤ ev.nrm st.parameters ∨
          cfg.error_gradient_norm ≤ ev.nrm st.gradient) →
      check_stopping cfg ev st = none →
      ev.minimize st.parameters (select_training_direction cfg st)
        (if st.iteration = 0 then cfg.first_training_rate else st.training_rate) = none →
      (training_loop cfg ev (fuel + 1) st r).stopping_condition = .NumericalFailure) ∧
    (∀ (cfg : Configuration) (ev : Evaluators) (fuel : ℕ) (st : TrainingState)
        (r : ConjugateGradientResults) (new_parameters : List ℚ)
        (new_performance rate : ℚ),
      ¬ (cfg.error_parameters_norm ≤ ev.nrm st.parameters ∨
          cfg.error_gradient_norm ≤ ev.nrm st.gradient) →
      check_stopping cfg ev st = none →
      ev.minimize st.parameters (select_training_direction cfg st)
          (if st.iteration = 0 then cfg.first_training_rate else st.training_rate) =
        some (new_parameters, new_performance, rate) →
      cfg.error_training_rate ≤ rate →
      (training_loop cfg ev (fuel + 1) st r).stopping_condition = .NumericalFailure) := by
  refine ⟨?_, ?_, ?_⟩
  · intro cfg ev fuel st r h
    rw [training_loop, if_pos h]
    exact ⟨rfl, rfl, rfl, rfl⟩
  · intro cfg ev fuel st r h1 h2 h3
    rw [training_loop, if_neg h1]
    simp only [h2, h3]
    rfl
  · intro cfg ev fuel st r new_parameters new_performance rate h1 h2 h3 h4
    rw [training_loop, if_neg h1]
    simp only [h2, h3]
    rw [if_pos h4]
    rfl

theorem numerical_failure_witness :
    ((training_loop cfgC6 evBase 9 stC6 ConjugateGradientResults.default).stopping_condition =
        .NumericalFailure ∧
      (training_loop cfgC6 evBase 9 stC6
          ConjugateGradientResults.default).iterations_number = 2 ∧
      (training_loop cfgC6 evBase 9 stC6
          ConjugateGradientResults.default).final_gradient_norm = 5) ∧
    (perform_training cfgC6 evBase [1 / 125]).stopping_condition = .NumericalFailure ∧
    (perform_training cfgC6 evBase [1 / 125]).iterations_number = 2 ∧
    (perform_training cfgC6 evBase [1 / 125]).final_gradient_norm = 5 := by
  constructor
  · have h := numerical_failure_spec.1 cfgC6 evBase 8 stC6 ConjugateGradientResults.default
      (Or.inr (by with_unfolding_all decide))
    exact ⟨h.1, h.2.1, h.2.2.1.trans (by with_unfolding_all decide)⟩
  · exact ⟨by with_unfolding_all decide, by with_unfolding_all decide,
      by with_unfolding_all decide⟩

/-- C7 counterexample: a run whose gradient is identically zero and whose
gradient-norm goal is 0 terminates with reason PerformanceGoalReached (the
performance goal, checked first, is also met), not by the gradient-norm-goal
criterion as the claim requires. -/
theorem gd_fallback_counterexample :
    (0 : ℚ) ≤ cfgC7x.gradient_norm_goal ∧
    evC7x.gradient [1] = [0] ∧
    (perform_training cfgC7x evC7x [1]).stopping_condition = .PerformanceGoalReached ∧
    (perform_training cfgC7x evC7x [1]).stopping_condition ≠ .GradientNormGoalReached :=
  ⟨by with_unfolding_all decide, rfl, by with_unfolding_all decide,
   by with_unfolding_all decide⟩

/-- C7 (amended): the gradient-descent fallback direction satisfies the descent
property d . (-g) > 0 whenever the gradient has a nonzero entry; for an all-zero
gradient the fallback direction is the zero vector, and a run whose current
gradient has norm 0 terminates on that same iteration with reason
GradientNormGoalReached provided the gradient-norm goal is at least 0, the
performance goal has not been reached, and no error threshold is breached (those
earlier checks otherwise take priority). -/
theorem gd_fallback_descent_spec :
    (∀ (g : List ℚ) (x : ℚ), x ∈ g → x ≠ 0 →
      0 < dot (calculate_gradient_descent_training_direction g) (vneg g)) ∧
    (∀ n : ℕ,
      calculate_gradient_descent_training_direction (List.replicate n 0) =
        List.replicate n 0) ∧
    (∀ (cfg : Configuration) (ev : Evaluators) (fuel : ℕ) (st : TrainingState)
        (r : ConjugateGradientResults),
      ev.nrm st.gradient = 0 →
      0 ≤ cfg.gradient_norm_goal →
      ¬ st.performance ≤ cfg.performance_goal →
      ¬ cfg.error_parameters_norm ≤ ev.nrm st.parameters →
      ¬ cfg.error_gradient_norm ≤ ev.nrm st.gradient →
      (training_loop cfg ev (fuel + 1) st r).stopping_condition =
          .GradientNormGoalReached ∧
      (training_loop cfg ev (fuel + 1) st r).iterations_number = st.iteration) := by
  refine ⟨?_, ?_, ?_⟩
  · intro g x hx hx0
    show 0 < dot (vneg g) (vneg g)
    rw [dot_vneg_vneg]
    exact dot_self_pos g x hx hx0
  · intro n
    show vneg (List.replicate n 0) = List.replicate n 0
    simp [vneg]
  · intro cfg ev fuel st r h0 hgoal hperf herrp herrg
    have hcs : check_stopping cfg ev st = some .GradientNormGoalReached := by
      unfold check_stopping
      rw [if_neg hperf, if_pos (by rw [h0]; exact hgoal)]
    rw [training_loop, if_neg (not_or.mpr ⟨herrp, herrg⟩)]
    simp only [hcs]
    exact ⟨rfl, rfl⟩

theorem gd_fallback_descent_witness :
    0 < dot (calculate_gradient_descent_training_direction [2]) (vneg [2]) ∧
    calculate_gradient_descent_training_direction (List.replicate 1 0) =
      List.replicate 1 0 ∧
    (training_loop cfgC7 evBase 8 stC7
        ConjugateGradientResults.default).stopping_condition = .GradientNormGoalReached :=
  ⟨gd_fallback_descent_spec.1 [2] 2 (by with_unfolding_all decide)
      (by with_unfolding_all decide),
   gd_fallback_descent_spec.2.1 1,
   (gd_fallback_descent_spec.2.2 cfgC7 evBase 7 stC7 ConjugateGradientResults.default
      (by with_unfolding_all decide) (by with_unfolding_all decide)
      (by with_unfolding_all decide) (by with_unfolding_all decide)
      (by with_unfolding_all decide)).1⟩

theorem reserved_lengths_resize (cfg : Configuration) (n : ℕ) :
    reserved_lengths cfg (resize_training_history cfg n ConjugateGradientResults.default) n := by
  simp [reserved_lengths, resize_training_history, ConjugateGradientResults.default,
    apply_ite List.length]

theorem reserved_lengths_record (cfg : Configuration) (ev : Evaluators) (st : TrainingState)
    (r : ConjugateGradientResults) (n : ℕ) (h : reserved_lengths cfg r n) :
    reserved_lengths cfg (record_history cfg ev st r) n := by
  obtain ⟨h1, h2, h3, h4, h5, h6, h7, h8, h9⟩ := h
  simp [reserved_lengths, record_history, apply_ite List.length, List.length_set,
    h1, h2, h3, h4, h5, h6, h7, h8, h9]

theorem reserved_lengths_finalize (cfg : Configuration) (reason : StoppingReason)
    (entries : ℕ) (ev : Evaluators) (st : TrainingState) (r : ConjugateGradientResults)
    (n : ℕ) (h : reserved_lengths cfg r n) (he : entries ≤ n) :
    reserved_lengths cfg (finalize reason entries ev st r) entries := by
  obtain ⟨h1, h2, h3, h4, h5, h6, h7, h8, h9⟩ := h
  unfold reserved_lengths finalize
  refine ⟨?_, ?_, ?_, ?_, ?_, ?_, ?_, ?_, ?_⟩ <;>
    simp only [List.length_take, h1, h2, h3, h4, h5, h6, h7, h8, h9] <;>
    split <;> omega

theorem training_loop_lengths (cfg : Configuration) (ev : Evaluators) :
    ∀ (fuel : ℕ) (st : TrainingState) (r : ConjugateGradientResults),
      st.iteration + fuel = cfg.maximum_iterations_number + 1 →
      reserved_lengths cfg r (cfg.maximum_iterations_number + 1) →
      (training_loop cfg ev fuel st r).stopping_condition ≠ .NumericalFailure →
      reserved_lengths cfg (training_loop cfg ev fuel st r)
        ((training_loop cfg ev fuel st r).iterations_number + 1) := by
  intro fuel
  induction fuel with
  | zero =>
    intro st r hiter hres hnf
    rw [training_loop] at hnf
    exact absurd rfl hnf
  | succ fuel ih =>
    intro st r hiter hres hnf
    rw [training_loop] at hnf ⊢
    by_cases herr : cfg.error_parameters_norm ≤ ev.nrm st.parameters ∨
        cfg.error_gradient_norm ≤ ev.nrm st.gradient
    · rw [if_pos herr] at hnf
      exact absurd rfl hnf
    · rw [if_neg herr] at hnf ⊢
      cases hcs : check_stopping cfg ev st with
      | some reason =>
        simp only [hcs] at hnf ⊢
        rw [finalize_iterations_number]
        exact reserved_lengths_finalize cfg reason (st.iteration + 1) ev st _ _
          (reserved_lengths_record cfg ev st r _ hres) (by omega)
      | none =>
        simp only [hcs] at hnf ⊢
        cases hmin : ev.minimize st.parameters (select_training_direction cfg st)
            (if st.iteration = 0 then cfg.first_training_rate else st.training_rate) with
        | none =>
          simp only [hmin] at hnf
          exact absurd rfl hnf
        | some trip =>
          obtain ⟨new_parameters, new_performance, rate⟩ := trip
          simp only [hmin] at hnf ⊢
          by_cases hrate : cfg.error_training_rate ≤ rate
          · rw [if_pos hrate] at hnf
            exact absurd rfl hnf
          · rw [if_neg hrate] at hnf ⊢
            exact ih (step_state ev st (select_training_direction cfg st) new_parameters
                new_performance rate) (record_history cfg ev st r)
              (by simp [step_state]; omega) (reserved_lengths_record cfg ev st r _ hres) hnf

/-- C3: for every run that terminates normally (not by NumericalFailure), every
history channel whose reserve flag is true has length equal to the number of
completed iterations + 1 (the iteration-0 state included) and every channel whose
flag is false has length 0; the channels are pre-sized by resize_training_history
(to maximum_iterations_number + 1 in perform_training) and shrunk only by the
single final trim to the actual length. -/
theorem history_length_spec (cfg : Configuration) (ev : Evaluators) (p0 : List ℚ)
    (hnf : (perform_training cfg ev p0).stopping_condition ≠ .NumericalFailure) :
    reserved_lengths cfg (perform_training cfg ev p0)
      ((perform_training cfg ev p0).iterations_number + 1) ∧
    ∀ n : ℕ,
      reserved_lengths cfg (resize_training_history cfg n ConjugateGradientResults.default)
        n := by
  refine ⟨?_, reserved_lengths_resize cfg⟩
  exact training_loop_lengths cfg ev (cfg.maximum_iterations_number + 1)
    (initial_state ev p0) _ (by simp [initial_state]) (reserved_lengths_resize cfg _) hnf

theorem history_length_witness :
    reserved_lengths cfgC3 (perform_training cfgC3 evBase [1 / 125])
      ((perform_training cfgC3 evBase [1 / 125]).iterations_number + 1) ∧
    (perform_training cfgC3 evBase [1 / 125]).iterations_number = 2 ∧
    (perform_training cfgC3 evBase [1 / 125]).stopping_condition =
      .MaximumIterationsReached :=
  ⟨(history_length_spec cfgC3 evBase [1 / 125] (by with_unfolding_all decide)).1,
   by with_unfolding_all decide, by with_unfolding_all decide⟩

/-- C9 counterexample: with maximum_iterations_number = 0 but the performance
goal already met at the initial state, the recorded reason is
PerformanceGoalReached (criterion 1 precedes criterion 7), not
MaximumIterationsReached as the claim requires. -/
theorem max_iter_zero_counterexample :
    cfgC9x.maximum_iterations_number = 0 ∧
    (perform_training cfgC9x evBase [1]).stopping_condition = .PerformanceGoalReached ∧
    (perform_training cfgC9x evBase [1]).stopping_condition ≠ .MaximumIterationsReached :=
  ⟨rfl, by with_unfolding_all decide, by with_unfolding_all decide⟩

/-- C9 (amended): with maximum_iterations_number = 0, provided no error threshold
is breached at the initial state and no earlier stopping criterion (performance
goal, gradient-norm goal, early stopping on selection, maximum time) fires there
- those take priority - perform_training terminates immediately after the
initial evaluation with reason MaximumIterationsReached and the record contains
only the iteration-0 state: every reserved channel has exactly one entry, every
other channel none. -/
theorem max_iter_zero_spec (cfg : Configuration) (ev : Evaluators) (p0 : List ℚ)
    (hmax : cfg.maximum_iterations_number = 0)
    (herr : ¬ (cfg.error_parameters_norm ≤ ev.nrm (initial_state ev p0).parameters ∨
               cfg.error_gradient_norm ≤ ev.nrm (initial_state ev p0).gradient))
    (h1 : ¬ (initial_state ev p0).performance ≤ cfg.performance_goal)
    (h2 : ¬ ev.nrm (initial_state ev p0).gradient ≤ cfg.gradient_norm_goal)
    (h5 : ¬ (ev.selection.isSome = true ∧
             cfg.maximum_selection_performance_decreases ≤
               (initial_state ev p0).selection_increases_count))
    (h6 : ¬ cfg.maximum_time ≤ (initial_state ev p0).elapsed_time) :
    (perform_training cfg ev p0).stopping_condition = .MaximumIterationsReached ∧
    (perform_training cfg ev p0).iterations_number = 0 ∧
    reserved_lengths cfg (perform_training cfg ev p0) 1 := by
  have h3 : ¬ ((initial_state ev p0).iteration ≠ 0 ∧
      (initial_state ev p0).parameters_increment_norm ≤
        cfg.minimum_parameters_increment_norm) := by
    simp [initial_state]
  have h4 : ¬ ((initial_state ev p0).iteration ≠ 0 ∧
      (initial_state ev p0).old_performance - (initial_state ev p0).performance ≤
        cfg.minimum_performance_increase) := by
    simp [initial_state]
  have h7 : cfg.maximum_iterations_number ≤ (initial_state ev p0).iteration := by
    simp [initial_state, hmax]
  have hcs : check_stopping cfg ev (initial_state ev p0) =
      some .MaximumIterationsReached := by
    unfold check_stopping
    rw [if_neg h1, if_neg h2, if_neg h3, if_neg h4, if_neg h5, if_neg h6, if_pos h7]
  have hrun : perform_training cfg ev p0 =
      finalize .MaximumIterationsReached 1 ev (initial_state ev p0)
        (record_history cfg ev (initial_state ev p0)
          (resize_training_history cfg 1 ConjugateGradientResults.default)) := by
    unfold perform_training
    rw [hmax, training_loop, if_neg herr]
    simp only [hcs]
    rfl
  rw [hrun]
  refine ⟨rfl, rfl, ?_⟩
  exact reserved_lengths_finalize cfg .MaximumIterationsReached 1 ev (initial_state ev p0)
    _ 1 (reserved_lengths_record cfg ev (initial_state ev p0) _ 1
      (reserved_lengths_resize cfg 1)) le_rfl

theorem max_iter_zero_witness :
    (perform_training cfgC9 evBase [1]).stopping_condition = .MaximumIterationsReached ∧
    (perform_training cfgC9 evBase [1]).iterations_number = 0 ∧
    reserved_lengths cfgC9 (perform_training cfgC9 evBase [1]) 1 :=
  max_iter_zero_spec cfgC9 evBase [1] rfl (by with_unfolding_all decide)
    (by with_unfolding_all decide) (by with_unfolding_all decide)
    (by with_unfolding_all decide) (by with_unfolding_all decide)

end OpenNN
